import Mathlib

/-!
# Verification of the motor-simulator core (`motor_simulator.py`)

Shallow embedding of the computational core of the repository:

* `get_parameter_value`           (source lines 606–611)
* `simulate_dc_motor`             (source lines 642–762)
* `simulate_ac_motor`             (source lines 764–908)
* `calculate_performance_rating`  (source lines 1004–1065)
* `run_simulation`                (source lines 613–640)

Machine floats are modelled as real numbers.  Python's `float('inf')` /
NaN special values and raising divisions, which matter only for the
slip-equals-zero behaviour of the AC engine, are modelled separately by
an explicit `PyVal` type with IEEE-style propagation rules and an
`Except`-valued program (`simulate_ac_motor_py`).
-/

noncomputable section

open Real

/-- The GUI parameter map `self.param_vars`.  Each key either is absent
(`none`), or holds a text entry.  `float(text)` either parses to a real
number (`some (some v)`) or raises `ValueError` (`some none`); the
numeric parse itself is abstracted. -/
def ParamStore : Type := String → Option (Option ℝ)

/-- Source lines 606–611: `float(self.param_vars[key].get())` with
`ValueError` (non-numeric text) and `KeyError` (missing key) both caught
and replaced by the call-site default. -/
def get_parameter_value (pv : ParamStore) (key : String) (default : ℝ) : ℝ :=
  match pv key with
  | some (some v) => v
  | some none => default
  | none => default

/-- Python's `int(x)` on a float: truncation toward zero. -/
def py_int (r : ℝ) : ℤ :=
  if 0 ≤ r then ⌊r⌋ else ⌈r⌉

/-- `np.linspace(a, b, n)`: `n` evenly spaced samples from `a` to `b`,
both endpoints included. -/
def linspace (a b : ℝ) (n : ℕ) : List ℝ :=
  (List.range n).map (fun i : ℕ => a + (b - a) * (i : ℝ) / ((n : ℝ) - 1))

@[simp] theorem linspace_length (a b : ℝ) (n : ℕ) : (linspace a b n).length = n := by
  simp [linspace]

theorem mem_linspace_iff {a b x : ℝ} {n : ℕ} :
    x ∈ linspace a b n ↔ ∃ i : ℕ, i < n ∧ x = a + (b - a) * (i : ℝ) / ((n : ℝ) - 1) := by
  simp only [linspace, List.mem_map, List.mem_range]
  constructor
  · rintro ⟨i, hi, rfl⟩
    exact ⟨i, hi, rfl⟩
  · rintro ⟨i, hi, rfl⟩
    exact ⟨i, hi, rfl⟩

/-- Every sample of `linspace a b n` lies in `[a, b]` when `a ≤ b`. -/
theorem linspace_mem_bounds {a b x : ℝ} {n : ℕ} (hab : a ≤ b)
    (hx : x ∈ linspace a b n) : a ≤ x ∧ x ≤ b := by
  obtain ⟨i, hi, rfl⟩ := mem_linspace_iff.mp hx
  rcases Nat.lt_or_ge i 1 with h1 | h1
  · have hi0 : i = 0 := by omega
    subst hi0
    simp [hab]
  · have hn2 : 2 ≤ n := by omega
    have hden : (0:ℝ) < (n:ℝ) - 1 := by
      have : (2:ℝ) ≤ (n:ℝ) := by exact_mod_cast hn2
      linarith
    have hnum : (0:ℝ) ≤ (b - a) * i := by
      have : (0:ℝ) ≤ (i:ℝ) := by positivity
      nlinarith
    have hi' : (i:ℝ) ≤ (n:ℝ) - 1 := by
      have : (i:ℝ) + 1 ≤ (n:ℝ) := by exact_mod_cast hi
      linarith
    constructor
    · have : (0:ℝ) ≤ (b - a) * i / ((n:ℝ) - 1) := div_nonneg hnum hden.le
      linarith
    · have hle : (b - a) * i / ((n:ℝ) - 1) ≤ b - a := by
        rw [div_le_iff₀ hden]
        nlinarith
      linarith

/-! ## DC motor engine (source lines 642–762) -/

namespace DC

def V (pv : ParamStore) : ℝ := get_parameter_value pv "rated_voltage" 220
def I_rated (pv : ParamStore) : ℝ := get_parameter_value pv "rated_current" 10
def Ra (pv : ParamStore) : ℝ := get_parameter_value pv "armature_resistance" 1.5
def Rf (pv : ParamStore) : ℝ := get_parameter_value pv "field_resistance" 100
def Ke (pv : ParamStore) : ℝ := get_parameter_value pv "back_emf_constant" 0.8
def Kt (pv : ParamStore) : ℝ := get_parameter_value pv "torque_constant" 0.8
def T_load (pv : ParamStore) : ℝ := get_parameter_value pv "load_torque" 10
def N_rated (pv : ParamStore) : ℝ := get_parameter_value pv "rated_speed" 1500
def J (pv : ParamStore) : ℝ := get_parameter_value pv "rotor_inertia" 0.001

def I_field (pv : ParamStore) : ℝ := V pv / Rf pv
def V_armature (pv : ParamStore) : ℝ := V pv
def omega_rated (pv : ParamStore) : ℝ := N_rated pv * 2 * π / 60
def Eb_rated (pv : ParamStore) : ℝ := Ke pv * omega_rated pv
def I_armature (pv : ParamStore) : ℝ := (V_armature pv - Eb_rated pv) / Ra pv
def T_developed (pv : ParamStore) : ℝ := Kt pv * I_armature pv
def T_friction (pv : ParamStore) : ℝ := T_developed pv * 0.05
def T_shaft (pv : ParamStore) : ℝ := T_developed pv - T_friction pv
def speed_reduction_factor (pv : ParamStore) : ℝ :=
  if T_developed pv > 0 then T_load pv / T_developed pv else 0
def N_actual (pv : ParamStore) : ℝ := N_rated pv * (1 - speed_reduction_factor pv * 0.1)
def omega_actual (pv : ParamStore) : ℝ := N_actual pv * 2 * π / 60
def P_input (pv : ParamStore) : ℝ := V pv * I_armature pv
def P_armature_loss (pv : ParamStore) : ℝ := I_armature pv ^ 2 * Ra pv
def P_field_loss (pv : ParamStore) : ℝ := I_field pv ^ 2 * Rf pv
def P_mechanical (pv : ParamStore) : ℝ := T_shaft pv * omega_actual pv
def P_output (pv : ParamStore) : ℝ := T_load pv * omega_actual pv
def efficiency (pv : ParamStore) : ℝ :=
  if P_input pv > 0 then P_output pv / P_input pv * 100 else 0
def P_core_loss (pv : ParamStore) : ℝ := 0.02 * P_input pv
def P_total_loss (pv : ParamStore) : ℝ :=
  P_armature_loss pv + P_field_loss pv + P_core_loss pv + T_friction pv * omega_actual pv
def thermal_resistance : ℝ := 5
def temp_rise (pv : ParamStore) : ℝ := P_total_loss pv * thermal_resistance
def ambient_temp (pv : ParamStore) : ℝ := get_parameter_value pv "ambient_temp" 40
def operating_temp (pv : ParamStore) : ℝ := ambient_temp pv + temp_rise pv
def conductor_area : ℝ := 0.0001
def current_density (pv : ParamStore) : ℝ :=
  if conductor_area > 0 then I_armature pv / conductor_area else 0

/-- The swept RPM axis: `np.linspace(0, N_rated * 1.2, 50)`. -/
def speed_range (pv : ParamStore) : List ℝ := linspace 0 (N_rated pv * 1.2) 50

def curve_omega (n : ℝ) : ℝ := n * 2 * π / 60
def curve_Eb (pv : ParamStore) (n : ℝ) : ℝ := Ke pv * curve_omega n
def curve_Ia (pv : ParamStore) (n : ℝ) : ℝ :=
  max 0 ((V_armature pv - curve_Eb pv n) / Ra pv)
def curve_T (pv : ParamStore) (n : ℝ) : ℝ := Kt pv * curve_Ia pv n
def curve_P_out (pv : ParamStore) (n : ℝ) : ℝ := curve_T pv n * curve_omega n
def curve_P_in (pv : ParamStore) (n : ℝ) : ℝ := V pv * curve_Ia pv n
def curve_eff (pv : ParamStore) (n : ℝ) : ℝ :=
  if curve_P_in pv n > 0 then curve_P_out pv n / curve_P_in pv n * 100 else 0

structure DCResults where
  motor_type : String
  input_voltage : ℝ
  input_current : ℝ
  input_power : ℝ
  output_power : ℝ
  mechanical_power : ℝ
  efficiency : ℝ
  speed_rpm : ℝ
  speed_rad_s : ℝ
  torque : ℝ
  load_torque : ℝ
  developed_torque : ℝ
  armature_current : ℝ
  field_current : ℝ
  back_emf : ℝ
  armature_loss : ℝ
  field_loss : ℝ
  core_loss : ℝ
  mechanical_loss : ℝ
  total_loss : ℝ
  operating_temp : ℝ
  temp_rise : ℝ
  current_density : ℝ
  power_factor : ℝ
  speed_range : List ℝ
  torque_curve : List ℝ
  current_curve : List ℝ
  power_curve : List ℝ
  efficiency_curve : List ℝ

/-- Source lines 642–762. -/
def simulate_dc_motor (pv : ParamStore) : DCResults where
  motor_type := "DC Motor"
  input_voltage := V pv
  input_current := I_armature pv
  input_power := P_input pv
  output_power := P_output pv
  mechanical_power := P_mechanical pv
  efficiency := efficiency pv
  speed_rpm := N_actual pv
  speed_rad_s := omega_actual pv
  torque := T_shaft pv
  load_torque := T_load pv
  developed_torque := T_developed pv
  armature_current := I_armature pv
  field_current := I_field pv
  back_emf := Ke pv * omega_actual pv
  armature_loss := P_armature_loss pv
  field_loss := P_field_loss pv
  core_loss := P_core_loss pv
  mechanical_loss := T_friction pv * omega_actual pv
  total_loss := P_total_loss pv
  operating_temp := operating_temp pv
  temp_rise := temp_rise pv
  current_density := current_density pv
  power_factor := 1.0
  speed_range := speed_range pv
  torque_curve := (speed_range pv).map (fun n => curve_T pv n)
  current_curve := (speed_range pv).map (fun n => curve_Ia pv n)
  power_curve := (speed_range pv).map (fun n => curve_P_out pv n)
  efficiency_curve := (speed_range pv).map (fun n => min (curve_eff pv n) 100)

end DC

/-! ## AC induction-motor engine (source lines 764–908), real-valued model

The single guard `Rr / s if s > 0 else float('inf')` produces the float
infinity in Python; in this real-valued model its `else` branch is left
at `0` and the exact special-value behaviour at slip `0` is captured by
the separate `PyVal` program `simulate_ac_motor_py` below.  No claim
settled against this model depends on that branch. -/

namespace AC

def V (pv : ParamStore) : ℝ := get_parameter_value pv "rated_voltage" 220
def I_rated (pv : ParamStore) : ℝ := get_parameter_value pv "rated_current" 10
def f (pv : ParamStore) : ℝ := get_parameter_value pv "frequency" 50
def P_poles (pv : ParamStore) : ℤ := py_int (get_parameter_value pv "poles" 4)
def Rs (pv : ParamStore) : ℝ := get_parameter_value pv "stator_resistance" 1.2
def Rr (pv : ParamStore) : ℝ := get_parameter_value pv "rotor_resistance" 0.8
def Im (pv : ParamStore) : ℝ := get_parameter_value pv "magnetizing_current" 3.0
def slip_percent (pv : ParamStore) : ℝ := get_parameter_value pv "slip" 3.0
def T_load (pv : ParamStore) : ℝ := get_parameter_value pv "load_torque" 10

def Ns (pv : ParamStore) : ℝ := 120 * f pv / (P_poles pv : ℝ)
def omega_sync (pv : ParamStore) : ℝ := Ns pv * 2 * π / 60
def s (pv : ParamStore) : ℝ := slip_percent pv / 100
def Nr (pv : ParamStore) : ℝ := Ns pv * (1 - s pv)
def omega_r (pv : ParamStore) : ℝ := Nr pv * 2 * π / 60
def Xm (pv : ParamStore) : ℝ := V pv / (Im pv * Real.sqrt 3)
def X1 (pv : ParamStore) : ℝ := 0.1 * Xm pv
def X2 (pv : ParamStore) : ℝ := 0.1 * Xm pv
def Rr_prime (pv : ParamStore) : ℝ := if s pv > 0 then Rr pv / s pv else 0
def Z (pv : ParamStore) : ℝ :=
  Real.sqrt ((Rs pv + Rr_prime pv) ^ 2 + (X1 pv + X2 pv) ^ 2)
def Vph (pv : ParamStore) : ℝ := V pv / Real.sqrt 3
def I1 (pv : ParamStore) : ℝ := if Z pv > 0 then Vph pv / Z pv else 0
def power_factor (pv : ParamStore) : ℝ :=
  if Z pv > 0 then (Rs pv + Rr_prime pv) / Z pv else 0
def P_input (pv : ParamStore) : ℝ := Real.sqrt 3 * V pv * I1 pv * power_factor pv
def P_ag (pv : ParamStore) : ℝ := P_input pv - 3 * I1 pv ^ 2 * Rs pv
def P_rcl (pv : ParamStore) : ℝ := s pv * P_ag pv
def P_mech (pv : ParamStore) : ℝ := P_ag pv - P_rcl pv
def T_developed (pv : ParamStore) : ℝ :=
  if omega_r pv > 0 then P_mech pv / omega_r pv else 0
def P_core (pv : ParamStore) : ℝ := 0.03 * P_input pv
def P_fw (pv : ParamStore) : ℝ := 0.01 * P_input pv
def P_output (pv : ParamStore) : ℝ := P_mech pv - P_fw pv
def T_output (pv : ParamStore) : ℝ :=
  if omega_r pv > 0 then P_output pv / omega_r pv else 0
def P_loss (pv : ParamStore) : ℝ := P_input pv - P_output pv
def efficiency (pv : ParamStore) : ℝ :=
  if P_input pv > 0 then P_output pv / P_input pv * 100 else 0
def thermal_resistance : ℝ := 6
def temp_rise (pv : ParamStore) : ℝ := P_loss pv * thermal_resistance
def ambient_temp (pv : ParamStore) : ℝ := get_parameter_value pv "ambient_temp" 40
def operating_temp (pv : ParamStore) : ℝ := ambient_temp pv + temp_rise pv

/-- `np.linspace(0.001, 1.0, 50)`: the swept slip axis (avoids slip 0). -/
def slip_range : List ℝ := linspace 0.001 1.0 50

/-- `speed_range = Ns * (1 - slip_range)` (numpy broadcast). -/
def speed_range (pv : ParamStore) : List ℝ :=
  slip_range.map (fun sv => Ns pv * (1 - sv))

def curve_Rr_s (pv : ParamStore) (sv : ℝ) : ℝ :=
  if sv > 0 then Rr pv / sv else 0
def curve_Z_s (pv : ParamStore) (sv : ℝ) : ℝ :=
  Real.sqrt ((Rs pv + curve_Rr_s pv sv) ^ 2 + (X1 pv + X2 pv) ^ 2)
def curve_I_s (pv : ParamStore) (sv : ℝ) : ℝ :=
  if curve_Z_s pv sv > 0 then Vph pv / curve_Z_s pv sv else 0
def curve_T_s (pv : ParamStore) (sv : ℝ) : ℝ :=
  if sv > 0 then
    3 * Vph pv ^ 2 * Rr pv / sv /
      (omega_sync pv * ((Rs pv + Rr pv / sv) ^ 2 + (X1 pv + X2 pv) ^ 2))
  else 0
def curve_P_in_s (pv : ParamStore) (sv : ℝ) : ℝ :=
  Real.sqrt 3 * V pv * curve_I_s pv sv *
    ((Rs pv + curve_Rr_s pv sv) / curve_Z_s pv sv)
def curve_P_out_s (pv : ParamStore) (sv : ℝ) : ℝ :=
  curve_T_s pv sv * Ns pv * (1 - sv) * 2 * π / 60
def curve_eff_s (pv : ParamStore) (sv : ℝ) : ℝ :=
  if curve_P_in_s pv sv > 0 then curve_P_out_s pv sv / curve_P_in_s pv sv * 100 else 0

structure ACResults where
  motor_type : String
  input_voltage : ℝ
  input_current : ℝ
  input_power : ℝ
  output_power : ℝ
  mechanical_power : ℝ
  efficiency : ℝ
  speed_rpm : ℝ
  speed_rad_s : ℝ
  synchronous_speed : ℝ
  slip : ℝ
  torque : ℝ
  load_torque : ℝ
  developed_torque : ℝ
  frequency : ℝ
  poles : ℤ
  power_factor : ℝ
  stator_current : ℝ
  stator_loss : ℝ
  rotor_loss : ℝ
  core_loss : ℝ
  mechanical_loss : ℝ
  total_loss : ℝ
  operating_temp : ℝ
  temp_rise : ℝ
  air_gap_power : ℝ
  speed_range : List ℝ
  torque_curve : List ℝ
  current_curve : List ℝ
  power_curve : List ℝ
  efficiency_curve : List ℝ

/-- Source lines 764–908. -/
def simulate_ac_motor (pv : ParamStore) : ACResults where
  motor_type := "AC Induction Motor (3-Phase)"
  input_voltage := V pv
  input_current := I1 pv * Real.sqrt 3
  input_power := P_input pv
  output_power := P_output pv
  mechanical_power := P_mech pv
  efficiency := efficiency pv
  speed_rpm := Nr pv
  speed_rad_s := omega_r pv
  synchronous_speed := Ns pv
  slip := s pv * 100
  torque := T_output pv
  load_torque := T_load pv
  developed_torque := T_developed pv
  frequency := f pv
  poles := P_poles pv
  power_factor := power_factor pv
  stator_current := I1 pv
  stator_loss := 3 * I1 pv ^ 2 * Rs pv
  rotor_loss := P_rcl pv
  core_loss := P_core pv
  mechanical_loss := P_fw pv
  total_loss := P_loss pv
  operating_temp := operating_temp pv
  temp_rise := temp_rise pv
  air_gap_power := P_ag pv
  speed_range := speed_range pv
  torque_curve := slip_range.map (fun sv => curve_T_s pv sv)
  current_curve := slip_range.map (fun sv => curve_I_s pv sv * Real.sqrt 3)
  power_curve := slip_range.map (fun sv => curve_P_out_s pv sv)
  efficiency_curve := slip_range.map (fun sv => min (curve_eff_s pv sv) 100)

end AC

/-! ## Performance-rating evaluator (source lines 1004–1065) -/

/-- Python's `str.upper()` on the insulation-class text (ASCII). -/
def py_upper (s : String) : String := ⟨s.data.map Char.toUpper⟩

/-- The insulation-class table `{'A': 105, 'B': 130, 'F': 155, 'H': 180}`
read with `.get(insulation_class, 155)` (source lines 1035–1036). -/
def temp_limits_get (c : String) : ℝ :=
  if c = "A" then 105
  else if c = "B" then 130
  else if c = "F" then 155
  else if c = "H" then 180
  else 155

/-- Efficiency factor of the score (source lines 1009–1019). -/
def eff_points (eff : ℝ) : ℕ :=
  if eff ≥ 90 then 40
  else if eff ≥ 80 then 35
  else if eff ≥ 70 then 25
  else if eff ≥ 60 then 15
  else 5

/-- Power-factor factor of the score (source lines 1022–1030). -/
def pf_points (pf : ℝ) : ℕ :=
  if pf ≥ 0.95 then 30
  else if pf ≥ 0.85 then 25
  else if pf ≥ 0.75 then 15
  else 5

/-- Thermal factor of the score as a function of
`operating_temp / limit` (source lines 1038–1046). -/
def thermal_points (r : ℝ) : ℕ :=
  if r < 0.7 then 30
  else if r < 0.85 then 20
  else if r < 1.0 then 10
  else 0

structure Rating where
  score : ℕ
  grade : String
  assessment : String

/-- Source lines 1004–1065: additive score accumulation (`score += …`)
followed by the grade table.  `insulation_class` is the raw text of the
insulation-class widget; the source applies `.upper()` to it. -/
def calculate_performance_rating (efficiency power_factor operating_temp : ℝ)
    (insulation_class : String) : Rating :=
  let score1 : ℕ :=
    if efficiency ≥ 90 then 40
    else if efficiency ≥ 80 then 35
    else if efficiency ≥ 70 then 25
    else if efficiency ≥ 60 then 15
    else 5
  let score2 : ℕ := score1 +
    (if power_factor ≥ 0.95 then 30
     else if power_factor ≥ 0.85 then 25
     else if power_factor ≥ 0.75 then 15
     else 5)
  let limit := temp_limits_get (py_upper insulation_class)
  let score3 : ℕ := score2 +
    (if operating_temp / limit < 0.7 then 30
     else if operating_temp / limit < 0.85 then 20
     else if operating_temp / limit < 1.0 then 10
     else 0)
  if score3 ≥ 90 then ⟨score3, "A+ (Excellent)", "Outstanding performance"⟩
  else if score3 ≥ 80 then ⟨score3, "A (Very Good)", "Very good performance"⟩
  else if score3 ≥ 70 then ⟨score3, "B (Good)", "Good performance"⟩
  else if score3 ≥ 60 then ⟨score3, "C (Acceptable)", "Acceptable performance"⟩
  else ⟨score3, "D (Poor)", "Needs improvement"⟩

/-! ## Run orchestration (source lines 613–640)

The presentation steps (`display_results`, `update_visualizations`) are
external collaborators; any of the steps of the `try` block may raise,
modelled by `Except`.  The append to `simulation_history` is the last
statement of the `try` block. -/

inductive BundleR where
  | dc : DC.DCResults → BundleR
  | ac : AC.ACResults → BundleR

structure Timed where
  bundle : BundleR
  timestamp : String
  motor_type : String

/-- The body of the `try` block of `run_simulation` (source lines
615–637) up to and excluding the final append: compute (by motor-type
flag), display, visualize, stamp. -/
def try_body (motor_type ts : String) (pv : ParamStore)
    (display visualize : BundleR → Except String Unit) : Except String Timed := do
  let results :=
    if motor_type = "DC" then BundleR.dc (DC.simulate_dc_motor pv)
    else BundleR.ac (AC.simulate_ac_motor pv)
  display results
  visualize results
  pure ⟨results, ts, motor_type⟩

/-- Source lines 613–640: run the `try` block; its last statement
appends the stamped bundle to the history; on any raised error show a
message box and leave the history untouched.  Returns the new history
and the reported error, if any. -/
def run_simulation (motor_type ts : String) (pv : ParamStore)
    (display visualize : BundleR → Except String Unit)
    (history : List Timed) : List Timed × Option String :=
  match try_body motor_type ts pv display visualize with
  | .ok r => (history ++ [r], none)
  | .error e => (history, some e)

/-! ## Python float special values

`PyVal` models a Python float as a real number, `float('inf')`,
`float('-inf')` or NaN, with IEEE-754 propagation rules as implemented
by CPython: division by (exact) zero and `math.sqrt` of a negative
number raise, everything else is total. -/

inductive PyVal where
  | fin : ℝ → PyVal
  | inf : PyVal
  | ninf : PyVal
  | nan : PyVal

namespace PyVal

def pyNeg : PyVal → PyVal
  | fin a => fin (-a)
  | inf => ninf
  | ninf => inf
  | nan => nan

def pyAdd : PyVal → PyVal → PyVal
  | nan, _ => nan
  | _, nan => nan
  | inf, ninf => nan
  | ninf, inf => nan
  | inf, _ => inf
  | _, inf => inf
  | ninf, _ => ninf
  | _, ninf => ninf
  | fin a, fin b => fin (a + b)

def pySub (x y : PyVal) : PyVal := pyAdd x (pyNeg y)

def pyMul : PyVal → PyVal → PyVal
  | nan, _ => nan
  | _, nan => nan
  | inf, inf => inf
  | inf, ninf => ninf
  | ninf, inf => ninf
  | ninf, ninf => inf
  | inf, fin b => if b > 0 then inf else if b < 0 then ninf else nan
  | fin a, inf => if a > 0 then inf else if a < 0 then ninf else nan
  | ninf, fin b => if b > 0 then ninf else if b < 0 then inf else nan
  | fin a, ninf => if a > 0 then ninf else if a < 0 then inf else nan
  | fin a, fin b => fin (a * b)

/-- Python float `/`: any divisor equal to exact zero raises
`ZeroDivisionError`, whatever the dividend. -/
def pyDiv : PyVal → PyVal → Except String PyVal
  | x, fin b =>
    if b = 0 then .error "ZeroDivisionError: float division by zero"
    else
      match x with
      | fin a => .ok (fin (a / b))
      | inf => .ok (if b > 0 then inf else ninf)
      | ninf => .ok (if b > 0 then ninf else inf)
      | nan => .ok nan
  | nan, _ => .ok nan
  | _, nan => .ok nan
  | fin _, inf => .ok (fin 0)
  | fin _, ninf => .ok (fin 0)
  | inf, inf => .ok nan
  | inf, ninf => .ok nan
  | ninf, inf => .ok nan
  | ninf, ninf => .ok nan

/-- `math.sqrt`: raises `ValueError` on negative input (including
`-inf`), maps `inf` to `inf` and NaN to NaN. -/
def pySqrtE : PyVal → Except String PyVal
  | fin a => if a < 0 then .error "ValueError: math domain error" else .ok (fin (Real.sqrt a))
  | inf => .ok inf
  | ninf => .error "ValueError: math domain error"
  | nan => .ok nan

/-- Python float `>`; every comparison involving NaN is false. -/
def pyGt : PyVal → PyVal → Prop
  | nan, _ => False
  | _, nan => False
  | inf, inf => False
  | inf, _ => True
  | _, inf => False
  | ninf, ninf => False
  | ninf, _ => False
  | _, ninf => True
  | fin a, fin b => a > b

instance (x y : PyVal) : Decidable (pyGt x y) := Classical.propDecidable _

/-- Python float `<`; every comparison involving NaN is false. -/
def pyLt (x y : PyVal) : Prop := pyGt y x

instance (x y : PyVal) : Decidable (pyLt x y) := Classical.propDecidable _

/-- Python `min(x, y)`: `y` if `y < x` else `x` (so NaN in the first
argument propagates). -/
def pyMin (x y : PyVal) : PyVal := if pyLt y x then y else x

end PyVal

/-! ### Propagation lemmas for `PyVal` arithmetic -/

namespace PyVal

@[simp] theorem pyAdd_fin_fin (a b : ℝ) : pyAdd (fin a) (fin b) = fin (a + b) := rfl
@[simp] theorem pySub_fin_fin (a b : ℝ) : pySub (fin a) (fin b) = fin (a + -b) := rfl
@[simp] theorem pyMul_fin_fin (a b : ℝ) : pyMul (fin a) (fin b) = fin (a * b) := rfl
@[simp] theorem pyAdd_fin_inf (a : ℝ) : pyAdd (fin a) inf = inf := rfl
@[simp] theorem pyAdd_inf_fin (a : ℝ) : pyAdd inf (fin a) = inf := rfl
@[simp] theorem pyAdd_fin_nan (a : ℝ) : pyAdd (fin a) nan = nan := rfl
@[simp] theorem pyAdd_nan_fin (a : ℝ) : pyAdd nan (fin a) = nan := rfl
@[simp] theorem pyMul_inf_inf : pyMul inf inf = inf := rfl
@[simp] theorem pySub_nan_fin (a : ℝ) : pySub nan (fin a) = nan := rfl
@[simp] theorem pySub_fin_nan (a : ℝ) : pySub (fin a) nan = nan := rfl
@[simp] theorem pySub_nan_nan : pySub nan nan = nan := rfl
@[simp] theorem pyMul_nan_left (x : PyVal) : pyMul nan x = nan := by
  cases x <;> rfl
@[simp] theorem pyMul_fin_nan (a : ℝ) : pyMul (fin a) nan = nan := rfl
@[simp] theorem pyMul_zero_nan : pyMul (fin 0) nan = nan := rfl

theorem pyMul_fin_inf_pos {a : ℝ} (h : a > 0) : pyMul (fin a) inf = inf := by
  simp [pyMul, h]

theorem pyDiv_fin_fin {b : ℝ} (a : ℝ) (hb : b ≠ 0) :
    pyDiv (fin a) (fin b) = .ok (fin (a / b)) := by
  simp [pyDiv, hb]

theorem pyDiv_fin_zero (a : ℝ) :
    pyDiv (fin a) (fin 0) = .error "ZeroDivisionError: float division by zero" := by
  simp [pyDiv]

@[simp] theorem pyDiv_fin_inf (a : ℝ) : pyDiv (fin a) inf = .ok (fin 0) := rfl
@[simp] theorem pyDiv_inf_inf : pyDiv inf inf = .ok nan := rfl
@[simp] theorem pyDiv_nan_inf : pyDiv nan inf = .ok nan := rfl

theorem pyDiv_nan_fin {b : ℝ} (hb : b ≠ 0) : pyDiv nan (fin b) = .ok nan := by
  simp [pyDiv, hb]

theorem pySqrtE_fin {a : ℝ} (h : ¬ a < 0) : pySqrtE (fin a) = .ok (fin (Real.sqrt a)) := by
  simp [pySqrtE, h]

@[simp] theorem pySqrtE_inf : pySqrtE inf = .ok inf := rfl

@[simp] theorem pyGt_fin_fin (a b : ℝ) : pyGt (fin a) (fin b) ↔ a > b := Iff.rfl
@[simp] theorem pyGt_inf_fin (b : ℝ) : pyGt inf (fin b) := trivial
@[simp] theorem pyGt_nan_fin (b : ℝ) : ¬ pyGt nan (fin b) := fun h => h

end PyVal

/-- The effect of a Python `for` loop whose body may raise: the results
collected so far are discarded when an iteration raises. -/
def mapE {α β : Type} (g : α → Except String β) : List α → Except String (List β)
  | [] => .ok []
  | x :: xs => do
    let y ← g x
    let ys ← mapE g xs
    pure (y :: ys)

/-- One iteration of the AC sweep loop (source lines 856–872), over
Python float values.  Returns the tuple appended to
`(torque_curve, current_curve, power_curve, efficiency_curve)`. -/
def ac_sample_py (V Vph Rs Rr X1 X2 omega_sync Ns : PyVal) (s_val : ℝ) :
    Except String (PyVal × PyVal × PyVal × PyVal) := do
  let Rr_s ← if s_val > 0 then PyVal.pyDiv Rr (.fin s_val) else pure PyVal.inf
  let Z_s ← PyVal.pySqrtE (PyVal.pyAdd
    (PyVal.pyMul (PyVal.pyAdd Rs Rr_s) (PyVal.pyAdd Rs Rr_s))
    (PyVal.pyMul (PyVal.pyAdd X1 X2) (PyVal.pyAdd X1 X2)))
  let I_s ← if PyVal.pyGt Z_s (.fin 0) then PyVal.pyDiv Vph Z_s else pure (PyVal.fin 0)
  let T_s ← if s_val > 0 then do
      let num ← PyVal.pyDiv (PyVal.pyMul (PyVal.pyMul (.fin 3) (PyVal.pyMul Vph Vph)) Rr)
        (.fin s_val)
      let rds ← PyVal.pyDiv Rr (.fin s_val)
      PyVal.pyDiv num (PyVal.pyMul omega_sync (PyVal.pyAdd
        (PyVal.pyMul (PyVal.pyAdd Rs rds) (PyVal.pyAdd Rs rds))
        (PyVal.pyMul (PyVal.pyAdd X1 X2) (PyVal.pyAdd X1 X2))))
    else pure (PyVal.fin 0)
  let q ← PyVal.pyDiv (PyVal.pyAdd Rs Rr_s) Z_s
  let P_in_s := PyVal.pyMul (PyVal.pyMul (PyVal.pyMul (.fin (Real.sqrt 3)) V) I_s) q
  let P_out_s ← PyVal.pyDiv (PyVal.pyMul (PyVal.pyMul
    (PyVal.pyMul (PyVal.pyMul T_s Ns) (PyVal.pySub (.fin 1) (.fin s_val)))
    (.fin 2)) (.fin π)) (.fin 60)
  let eff_s ← if PyVal.pyGt P_in_s (.fin 0) then do
      let e1 ← PyVal.pyDiv P_out_s P_in_s
      pure (PyVal.pyMul e1 (.fin 100))
    else pure (PyVal.fin 0)
  pure (T_s, PyVal.pyMul I_s (.fin (Real.sqrt 3)), P_out_s, PyVal.pyMin eff_s (.fin 100))

structure ACResultsPy where
  synchronous_speed : PyVal
  Rr_prime : PyVal
  Z : PyVal
  I1 : PyVal
  power_factor : PyVal
  P_input : PyVal
  P_ag : PyVal
  T_developed : PyVal
  torque : PyVal
  P_output : PyVal
  core_loss : PyVal
  efficiency : PyVal
  temp_rise : PyVal
  operating_temp : PyVal
  speed_range : List PyVal
  torque_curve : List PyVal
  current_curve : List PyVal
  power_curve : List PyVal
  efficiency_curve : List PyVal

/-- Source lines 764–908 over Python float values: the same computation
as `AC.simulate_ac_motor`, but with `float('inf')` / NaN propagation and
raising division and square root, so that the behaviour at slip `0` (and
any raised `ZeroDivisionError`) is exactly represented. -/
def simulate_ac_motor_py (pv : ParamStore) : Except String ACResultsPy := do
  let V := PyVal.fin (get_parameter_value pv "rated_voltage" 220)
  let f := get_parameter_value pv "frequency" 50
  let P_poles : ℤ := py_int (get_parameter_value pv "poles" 4)
  let Rs := PyVal.fin (get_parameter_value pv "stator_resistance" 1.2)
  let Rr := PyVal.fin (get_parameter_value pv "rotor_resistance" 0.8)
  let Im := PyVal.fin (get_parameter_value pv "magnetizing_current" 3.0)
  let slip_percent := PyVal.fin (get_parameter_value pv "slip" 3.0)
  let Ns ← PyVal.pyDiv (.fin (120 * f)) (.fin (P_poles : ℝ))
  let omega_sync ← PyVal.pyDiv (PyVal.pyMul (PyVal.pyMul Ns (.fin 2)) (.fin π)) (.fin 60)
  let s ← PyVal.pyDiv slip_percent (.fin 100)
  let Nr := PyVal.pyMul Ns (PyVal.pySub (.fin 1) s)
  let omega_r ← PyVal.pyDiv (PyVal.pyMul (PyVal.pyMul Nr (.fin 2)) (.fin π)) (.fin 60)
  let Xm ← PyVal.pyDiv V (PyVal.pyMul Im (.fin (Real.sqrt 3)))
  let X1 := PyVal.pyMul (.fin 0.1) Xm
  let X2 := PyVal.pyMul (.fin 0.1) Xm
  let Rr_prime ← if PyVal.pyGt s (.fin 0) then PyVal.pyDiv Rr s else pure PyVal.inf
  let Z ← PyVal.pySqrtE (PyVal.pyAdd
    (PyVal.pyMul (PyVal.pyAdd Rs Rr_prime) (PyVal.pyAdd Rs Rr_prime))
    (PyVal.pyMul (PyVal.pyAdd X1 X2) (PyVal.pyAdd X1 X2)))
  let Vph ← PyVal.pyDiv V (.fin (Real.sqrt 3))
  let I1 ← if PyVal.pyGt Z (.fin 0) then PyVal.pyDiv Vph Z else pure (PyVal.fin 0)
  let power_factor ← if PyVal.pyGt Z (.fin 0) then PyVal.pyDiv (PyVal.pyAdd Rs Rr_prime) Z
    else pure (PyVal.fin 0)
  let P_input := PyVal.pyMul (PyVal.pyMul (PyVal.pyMul (.fin (Real.sqrt 3)) V) I1) power_factor
  let P_ag := PyVal.pySub P_input (PyVal.pyMul (PyVal.pyMul (.fin 3) (PyVal.pyMul I1 I1)) Rs)
  let P_rcl := PyVal.pyMul s P_ag
  let P_mech := PyVal.pySub P_ag P_rcl
  let T_developed ← if PyVal.pyGt omega_r (.fin 0) then PyVal.pyDiv P_mech omega_r
    else pure (PyVal.fin 0)
  let P_core := PyVal.pyMul (.fin 0.03) P_input
  let P_fw := PyVal.pyMul (.fin 0.01) P_input
  let P_output := PyVal.pySub P_mech P_fw
  let T_output ← if PyVal.pyGt omega_r (.fin 0) then PyVal.pyDiv P_output omega_r
    else pure (PyVal.fin 0)
  let P_loss := PyVal.pySub P_input P_output
  let efficiency ← if PyVal.pyGt P_input (.fin 0) then do
      let e1 ← PyVal.pyDiv P_output P_input
      pure (PyVal.pyMul e1 (.fin 100))
    else pure (PyVal.fin 0)
  let temp_rise := PyVal.pyMul P_loss (.fin 6)
  let ambient_temp := PyVal.fin (get_parameter_value pv "ambient_temp" 40)
  let operating_temp := PyVal.pyAdd ambient_temp temp_rise
  let speed_range := AC.slip_range.map (fun sv => PyVal.pyMul Ns (PyVal.pySub (.fin 1) (.fin sv)))
  let samples ← mapE (ac_sample_py V Vph Rs Rr X1 X2 omega_sync Ns) AC.slip_range
  pure { synchronous_speed := Ns, Rr_prime := Rr_prime, Z := Z, I1 := I1,
         power_factor := power_factor, P_input := P_input, P_ag := P_ag,
         T_developed := T_developed, torque := T_output, P_output := P_output,
         core_loss := P_core, efficiency := efficiency, temp_rise := temp_rise,
         operating_temp := operating_temp, speed_range := speed_range,
         torque_curve := samples.map (fun t => t.1),
         current_curve := samples.map (fun t => t.2.1),
         power_curve := samples.map (fun t => t.2.2.1),
         efficiency_curve := samples.map (fun t => t.2.2.2) }

/-! ## Shared helper lemmas and concrete parameter stores -/

/-- All parameter widgets missing: every lookup falls back to its
call-site default. -/
def emptyStore : ParamStore := fun _ => none

/-- Every parameter widget present but holding non-numeric text. -/
def textStore : ParamStore := fun _ => some none

@[simp] theorem get_parameter_value_empty (key : String) (d : ℝ) :
    get_parameter_value emptyStore key d = d := rfl

@[simp] theorem get_parameter_value_text (key : String) (d : ℝ) :
    get_parameter_value textStore key d = d := rfl

@[simp] theorem ok_bind {α β : Type} (a : α) (g : α → Except String β) :
    (Except.ok a >>= g) = g a := rfl

@[simp] theorem error_bind {α β : Type} (e : String) (g : α → Except String β) :
    ((Except.error e : Except String α) >>= g) = Except.error e := rfl

theorem mapE_isOk {α β : Type} (g : α → Except String β) (l : List α)
    (h : ∀ x ∈ l, ∃ y, g x = .ok y) : ∃ ys, mapE g l = .ok ys := by
  induction l with
  | nil => exact ⟨[], rfl⟩
  | cons a t ih =>
    obtain ⟨y, hy⟩ := h a (List.mem_cons_self a t)
    obtain ⟨ys, hys⟩ := ih (fun x hx => h x (List.mem_cons_of_mem a hx))
    exact ⟨y :: ys, by simp [mapE, hy, hys]⟩

/-- The score of the rating is the sum of the three factor tables. -/
theorem rating_score_eq (e p t : ℝ) (c : String) :
    (calculate_performance_rating e p t c).score =
      eff_points e + pf_points p + thermal_points (t / temp_limits_get (py_upper c)) := by
  unfold calculate_performance_rating eff_points pf_points thermal_points
  set s1 := (if e ≥ 90 then (40:ℕ) else if e ≥ 80 then 35 else if e ≥ 70 then 25
    else if e ≥ 60 then 15 else 5) with hs1
  set s2 := (if p ≥ 0.95 then (30:ℕ) else if p ≥ 0.85 then 25 else if p ≥ 0.75 then 15
    else 5) with hs2
  set s3 := (if t / temp_limits_get (py_upper c) < 0.7 then (30:ℕ)
    else if t / temp_limits_get (py_upper c) < 0.85 then 20
    else if t / temp_limits_get (py_upper c) < 1.0 then 10 else 0) with hs3
  by_cases h1 : s1 + s2 + s3 ≥ 90 <;> by_cases h2 : s1 + s2 + s3 ≥ 80 <;>
    by_cases h3 : s1 + s2 + s3 ≥ 70 <;> by_cases h4 : s1 + s2 + s3 ≥ 60 <;>
    simp [h1, h2, h3, h4]

theorem eff_points_bounds (e : ℝ) : 5 ≤ eff_points e ∧ eff_points e ≤ 40 := by
  unfold eff_points
  split_ifs <;> omega

theorem pf_points_bounds (p : ℝ) : 5 ≤ pf_points p ∧ pf_points p ≤ 30 := by
  unfold pf_points
  split_ifs <;> omega

theorem thermal_points_bounds (r : ℝ) : thermal_points r ≤ 30 := by
  unfold thermal_points
  split_ifs <;> omega

/-- A total of at least 90 points is graded "A+ (Excellent)". -/
theorem rating_grade_ge_90 (e p t : ℝ) (c : String)
    (h : 90 ≤ eff_points e + pf_points p + thermal_points (t / temp_limits_get (py_upper c))) :
    (calculate_performance_rating e p t c).grade = "A+ (Excellent)" := by
  unfold calculate_performance_rating
  unfold eff_points pf_points thermal_points at h
  set s1 := (if e ≥ 90 then (40:ℕ) else if e ≥ 80 then 35 else if e ≥ 70 then 25
    else if e ≥ 60 then 15 else 5) with hs1
  set s2 := (if p ≥ 0.95 then (30:ℕ) else if p ≥ 0.85 then 25 else if p ≥ 0.75 then 15
    else 5) with hs2
  set s3 := (if t / temp_limits_get (py_upper c) < 0.7 then (30:ℕ)
    else if t / temp_limits_get (py_upper c) < 0.85 then 20
    else if t / temp_limits_get (py_upper c) < 1.0 then 10 else 0) with hs3
  have h90 : s1 + s2 + s3 ≥ 90 := h
  simp [h90]

/-! ## Claims -/

/-- C6: for every Parameter Set, each engine returns a Result Bundle
whose five curve sequences (`speed_range`, `torque_curve`,
`current_curve`, `power_curve`, `efficiency_curve`) all have the same
fixed positive length 50, so index `i` of `speed_range` corresponds to
index `i` of every other curve. -/
theorem curves_have_length_50 (pv : ParamStore) :
    (DC.simulate_dc_motor pv).speed_range.length = 50 ∧
    (DC.simulate_dc_motor pv).torque_curve.length = 50 ∧
    (DC.simulate_dc_motor pv).current_curve.length = 50 ∧
    (DC.simulate_dc_motor pv).power_curve.length = 50 ∧
    (DC.simulate_dc_motor pv).efficiency_curve.length = 50 ∧
    (AC.simulate_ac_motor pv).speed_range.length = 50 ∧
    (AC.simulate_ac_motor pv).torque_curve.length = 50 ∧
    (AC.simulate_ac_motor pv).current_curve.length = 50 ∧
    (AC.simulate_ac_motor pv).power_curve.length = 50 ∧
    (AC.simulate_ac_motor pv).efficiency_curve.length = 50 := by
  refine ⟨?_, ?_, ?_, ?_, ?_, ?_, ?_, ?_, ?_, ?_⟩ <;>
    simp [DC.simulate_dc_motor, AC.simulate_ac_motor, DC.speed_range,
      AC.speed_range, AC.slip_range]

/-- C9: for every Result Bundle, the rating's total score lies in
`[10, 100]`: the efficiency and power-factor factors each contribute at
least 5 points, so scores in `[0, 10)` are unreachable. -/
theorem rating_score_in_10_100 (eff pf temp : ℝ) (cls : String) :
    10 ≤ (calculate_performance_rating eff pf temp cls).score ∧
    (calculate_performance_rating eff pf temp cls).score ≤ 100 := by
  rw [rating_score_eq]
  have h1 := eff_points_bounds eff
  have h2 := pf_points_bounds pf
  have h3 := thermal_points_bounds (temp / temp_limits_get (py_upper cls))
  omega

/-- C7: for every parameter key, a missing key (`KeyError`) or a
non-numeric stored value (`ValueError`) makes `get_parameter_value`
return the call-site default; the lookup is total. -/
theorem get_parameter_value_default (pv : ParamStore) (key : String) (d : ℝ) :
    (pv key = none → get_parameter_value pv key d = d) ∧
    (pv key = some none → get_parameter_value pv key d = d) := by
  constructor <;> intro h <;> simp [get_parameter_value, h]

/-- Witness for C7 at concrete stores. -/
theorem get_parameter_value_default_witness :
    (emptyStore "rated_speed" = none ∧
      get_parameter_value emptyStore "rated_speed" 1500 = 1500) ∧
    (textStore "rated_voltage" = some none ∧
      get_parameter_value textStore "rated_voltage" 220 = 220) :=
  ⟨⟨rfl, (get_parameter_value_default emptyStore "rated_speed" 1500).1 rfl⟩,
   ⟨rfl, (get_parameter_value_default textStore "rated_voltage" 220).2 rfl⟩⟩

/-- C8: each run is atomic with respect to history: a completed run
appends exactly one stamped bundle, a run that raises appends nothing,
and the previous history is preserved as a prefix in both cases. -/
theorem run_simulation_atomic (mt ts : String) (pv : ParamStore)
    (display visualize : BundleR → Except String Unit) (history : List Timed) :
    ((run_simulation mt ts pv display visualize history).2 = none →
      ∃ r, (run_simulation mt ts pv display visualize history).1 = history ++ [r]) ∧
    ((run_simulation mt ts pv display visualize history).2 ≠ none →
      (run_simulation mt ts pv display visualize history).1 = history) := by
  cases hs : try_body mt ts pv display visualize with
  | ok r =>
    constructor <;> intro h
    · exact ⟨r, by simp [run_simulation, hs]⟩
    · simp [run_simulation, hs] at h
  | error e =>
    constructor <;> intro h
    · simp [run_simulation, hs] at h
    · simp [run_simulation, hs]

/-- Witness for C8: a successful run appends one bundle, a failing run
leaves history unchanged. -/
theorem run_simulation_atomic_witness :
    (∃ r, (run_simulation "DC" "t" emptyStore (fun _ => Except.ok ())
        (fun _ => Except.ok ()) []).1 = [] ++ [r]) ∧
    (run_simulation "DC" "t" emptyStore (fun _ => Except.error "boom")
        (fun _ => Except.ok ()) []).1 = [] :=
  ⟨(run_simulation_atomic "DC" "t" emptyStore (fun _ => Except.ok ())
      (fun _ => Except.ok ()) []).1 rfl,
   (run_simulation_atomic "DC" "t" emptyStore (fun _ => Except.error "boom")
      (fun _ => Except.ok ()) []).2 (fun h => Option.noConfusion h)⟩

/-- C3: the AC engine's synchronous speed always equals
`120 × frequency / pole count` (poles truncated to an integer as
`int(...)` does), and for every Parameter Set whose frequency lookup
yields 50 and whose poles lookup yields 4, it equals exactly 1500 RPM,
independent of every other parameter. -/
theorem synchronous_speed_formula (pv : ParamStore) :
    (AC.simulate_ac_motor pv).synchronous_speed =
      120 * AC.f pv / ((AC.P_poles pv : ℤ) : ℝ) ∧
    (get_parameter_value pv "frequency" 50 = 50 →
      get_parameter_value pv "poles" 4 = 4 →
      (AC.simulate_ac_motor pv).synchronous_speed = 1500) := by
  refine ⟨rfl, fun hf hp => ?_⟩
  show AC.Ns pv = 1500
  unfold AC.Ns AC.f AC.P_poles
  rw [hf, hp]
  norm_num [py_int]

/-- Witness for C3: frequency 50 and poles 4 (the defaults of the empty
store) give exactly 1500 RPM. -/
theorem synchronous_speed_formula_witness :
    get_parameter_value emptyStore "frequency" 50 = 50 ∧
    get_parameter_value emptyStore "poles" 4 = 4 ∧
    (AC.simulate_ac_motor emptyStore).synchronous_speed = 1500 :=
  ⟨rfl, rfl, (synchronous_speed_formula emptyStore).2 rfl rfl⟩

/-- C4: the rating evaluator scores additively per the threshold tables
(efficiency worth at most 40 points, power factor at most 30, thermal
margin at most 30), uses the insulation limits A=105, B=130, F=155,
H=180 with 155 for an unrecognized class, and every bundle with
efficiency 92, power factor 0.97 and operating-temperature ratio 0.5
scores exactly 100 with grade "A+ (Excellent)". -/
theorem rating_tables_and_perfect_score :
    (∀ e p t : ℝ, ∀ c : String,
      (calculate_performance_rating e p t c).score =
        eff_points e + pf_points p + thermal_points (t / temp_limits_get (py_upper c))) ∧
    (∀ e : ℝ, eff_points e ≤ 40) ∧ (∀ p : ℝ, pf_points p ≤ 30) ∧
    (∀ r : ℝ, thermal_points r ≤ 30) ∧
    temp_limits_get "A" = 105 ∧ temp_limits_get "B" = 130 ∧
    temp_limits_get "F" = 155 ∧ temp_limits_get "H" = 180 ∧
    (∀ c : String, c ≠ "A" → c ≠ "B" → c ≠ "F" → c ≠ "H" →
      temp_limits_get c = 155) ∧
    (∀ t : ℝ, ∀ c : String, t / temp_limits_get (py_upper c) = 1/2 →
      (calculate_performance_rating 92 0.97 t c).score = 100 ∧
      (calculate_performance_rating 92 0.97 t c).grade = "A+ (Excellent)") := by
  refine ⟨rating_score_eq, fun e => (eff_points_bounds e).2,
    fun p => (pf_points_bounds p).2, thermal_points_bounds,
    rfl, rfl, rfl, rfl, ?_, ?_⟩
  · intro c hA hB hF hH
    simp [temp_limits_get, hA, hB, hF, hH]
  · intro t c h
    have hscore : (calculate_performance_rating 92 0.97 t c).score = 100 := by
      rw [rating_score_eq, h]
      norm_num [eff_points, pf_points, thermal_points]
    refine ⟨hscore, ?_⟩
    apply rating_grade_ge_90
    rw [h]
    norm_num [eff_points, pf_points, thermal_points]

/-- Witness for C4 at temperature 77.5 and class F (limit 155). -/
theorem rating_tables_perfect_score_witness :
    (77.5 : ℝ) / temp_limits_get (py_upper "F") = 1/2 ∧
    (calculate_performance_rating 92 0.97 77.5 "F").score = 100 ∧
    (calculate_performance_rating 92 0.97 77.5 "F").grade = "A+ (Excellent)" := by
  have hratio : (77.5 : ℝ) / temp_limits_get (py_upper "F") = 1/2 := by
    have h155 : temp_limits_get (py_upper "F") = 155 := rfl
    rw [h155]
    norm_num
  obtain ⟨-, -, -, -, -, -, -, -, -, hlast⟩ := rating_tables_and_perfect_score
  obtain ⟨h1, h2⟩ := hlast 77.5 "F" hratio
  exact ⟨hratio, h1, h2⟩

/-- The Parameter Set prescribed by §4.1's worked example: rated
voltage 220 V, armature resistance 1.5 Ω, back-EMF and torque constants
0.8, rated speed 1500 RPM, load torque 10 Nm. -/
def store_c2 : ParamStore := fun k =>
  if k = "rated_voltage" then some (some 220)
  else if k = "armature_resistance" then some (some 1.5)
  else if k = "back_emf_constant" then some (some 0.8)
  else if k = "torque_constant" then some (some 0.8)
  else if k = "rated_speed" then some (some 1500)
  else if k = "load_torque" then some (some 10)
  else none

/-- C2: on the §4.1 Parameter Set the DC engine's operating-point
armature current is `(220 − 0.8·(1500·2π/60))/1.5`, its developed
torque is `0.8` times that current, and its efficiency is
`(load_torque · ω_actual)/(220 · I_armature) · 100`; the computation is
a pure function of the parameters, hence reproducible. -/
theorem dc_operating_point_formulas :
    (DC.simulate_dc_motor store_c2).armature_current =
      (220 - 0.8 * (1500 * 2 * π / 60)) / 1.5 ∧
    (DC.simulate_dc_motor store_c2).developed_torque =
      0.8 * ((220 - 0.8 * (1500 * 2 * π / 60)) / 1.5) ∧
    (DC.simulate_dc_motor store_c2).efficiency =
      10 * (DC.simulate_dc_motor store_c2).speed_rad_s /
        (220 * ((220 - 0.8 * (1500 * 2 * π / 60)) / 1.5)) * 100 := by
  have hnum : (0:ℝ) < 220 - 0.8 * (1500 * 2 * π / 60) := by
    nlinarith [Real.pi_lt_d2]
  have hIa : DC.I_armature store_c2 = (220 - 0.8 * (1500 * 2 * π / 60)) / 1.5 := rfl
  have hIapos : 0 < DC.I_armature store_c2 := by
    rw [hIa]
    exact div_pos hnum (by norm_num)
  have hPinEq : DC.P_input store_c2 = 220 * ((220 - 0.8 * (1500 * 2 * π / 60)) / 1.5) := rfl
  have hPin : 0 < DC.P_input store_c2 := by
    rw [hPinEq]
    exact mul_pos (by norm_num) (div_pos hnum (by norm_num))
  refine ⟨hIa, rfl, ?_⟩
  show DC.efficiency store_c2 = _
  unfold DC.efficiency
  rw [if_pos hPin]
  have hPout : DC.P_output store_c2 = 10 * DC.omega_actual store_c2 := rfl
  rw [hPout, hPinEq]
  rfl

/-- Strict monotonicity of the sample axis. -/
theorem linspace_pairwise_lt {a b : ℝ} (hab : a < b) (n : ℕ) :
    (linspace a b n).Pairwise (· < ·) := by
  unfold linspace
  rw [List.pairwise_map]
  refine List.Pairwise.imp_of_mem ?_ (List.pairwise_lt_range n)
  intro i j hi hj hij
  have hjn : j < n := List.mem_range.mp hj
  have hn2 : 2 ≤ n := by omega
  have hden : (0:ℝ) < (n:ℝ) - 1 := by
    have : (2:ℝ) ≤ (n:ℝ) := by exact_mod_cast hn2
    linarith
  have hij' : (i:ℝ) < (j:ℝ) := by exact_mod_cast hij
  have hba : (0:ℝ) < b - a := sub_pos.mpr hab
  have hstep : (b - a) * (i:ℝ) / ((n:ℝ) - 1) < (b - a) * (j:ℝ) / ((n:ℝ) - 1) := by
    gcongr
  linarith

theorem linspace_getElem? {a b : ℝ} {n i : ℕ} (h : i < n) :
    (linspace a b n)[i]? = some (a + (b - a) * (i : ℝ) / ((n : ℝ) - 1)) := by
  unfold linspace
  rw [List.getElem?_map]
  simp [List.getElem?_range, h]

/-- C10: the two engines order the speed axis oppositely.  For a
positive rated speed the DC `speed_range` is strictly increasing from 0
to `1.2 ×` rated speed; for a positive synchronous speed (positive
frequency, positive truncated pole count) the AC `speed_range` is
strictly decreasing from `synchronous_speed × (1 − 0.001)` down to
exactly 0, and never contains the synchronous speed itself. -/
theorem speed_axis_ordering (pv : ParamStore)
    (hN : 0 < DC.N_rated pv) (hf : 0 < AC.f pv) (hp : 0 < AC.P_poles pv) :
    ((DC.simulate_dc_motor pv).speed_range).Pairwise (· < ·) ∧
    ((DC.simulate_dc_motor pv).speed_range)[0]? = some 0 ∧
    ((DC.simulate_dc_motor pv).speed_range)[49]? = some (DC.N_rated pv * 1.2) ∧
    ((AC.simulate_ac_motor pv).speed_range).Pairwise (· > ·) ∧
    ((AC.simulate_ac_motor pv).speed_range)[0]? = some (AC.Ns pv * (1 - 0.001)) ∧
    ((AC.simulate_ac_motor pv).speed_range)[49]? = some 0 ∧
    ∀ x ∈ (AC.simulate_ac_motor pv).speed_range, x < AC.Ns pv := by
  have hNs : 0 < AC.Ns pv := by
    unfold AC.Ns
    apply div_pos
    · nlinarith [hf]
    · exact_mod_cast hp
  have hdc : (DC.simulate_dc_motor pv).speed_range =
      linspace 0 (DC.N_rated pv * 1.2) 50 := rfl
  have hac : (AC.simulate_ac_motor pv).speed_range =
      (linspace 0.001 1.0 50).map (fun sv => AC.Ns pv * (1 - sv)) := rfl
  rw [hdc, hac]
  refine ⟨?_, ?_, ?_, ?_, ?_, ?_, ?_⟩
  · exact linspace_pairwise_lt (by nlinarith [hN]) 50
  · rw [linspace_getElem? (by norm_num)]
    norm_num
  · rw [linspace_getElem? (by norm_num)]
    norm_num
  · rw [List.pairwise_map]
    refine (linspace_pairwise_lt (by norm_num : (0.001:ℝ) < 1.0) 50).imp ?_
    intro x y hxy
    have : 1 - y < 1 - x := by linarith
    exact mul_lt_mul_of_pos_left this hNs
  · rw [List.getElem?_map, linspace_getElem? (by norm_num)]
    norm_num
  · rw [List.getElem?_map, linspace_getElem? (by norm_num)]
    norm_num
  · intro x hx
    obtain ⟨sv, hsv, rfl⟩ := List.mem_map.mp hx
    have hb := linspace_mem_bounds (by norm_num : (0.001:ℝ) ≤ 1.0) hsv
    nlinarith [hb.1, hNs]

/-- Witness for C10 at the default parameters (rated speed 1500,
frequency 50, poles 4). -/
theorem speed_axis_ordering_witness :
    ((DC.simulate_dc_motor emptyStore).speed_range).Pairwise (· < ·) ∧
    ((AC.simulate_ac_motor emptyStore).speed_range).Pairwise (· > ·) := by
  have h := speed_axis_ordering emptyStore (by norm_num [DC.N_rated])
    (by norm_num [AC.f]) (by norm_num [AC.P_poles, py_int, get_parameter_value, emptyStore])
  exact ⟨h.1, h.2.2.2.1⟩

/-- Default parameters except a load torque of 250 Nm. -/
def store_c1 : ParamStore := fun k =>
  if k = "load_torque" then some (some 250) else none

/-- C1 counterexample: with load torque 250 and otherwise default DC
parameters the operating-point efficiency (source line 690, not
clamped) exceeds 100 although the input power is positive. -/
theorem dc_efficiency_exceeds_100 :
    0 < (DC.simulate_dc_motor store_c1).input_power ∧
    100 < (DC.simulate_dc_motor store_c1).efficiency := by
  have hpiu : π < 3.15 := Real.pi_lt_d2
  have hpil : 3.14 < π := Real.pi_gt_d2
  have hnum : (0:ℝ) < 220 - 0.8 * (1500 * 2 * π / 60) := by nlinarith [hpiu]
  have hIa : DC.I_armature store_c1 = (220 - 0.8 * (1500 * 2 * π / 60)) / 1.5 := rfl
  have hTd : DC.T_developed store_c1 =
      0.8 * ((220 - 0.8 * (1500 * 2 * π / 60)) / 1.5) := rfl
  have hTdpos : 0 < DC.T_developed store_c1 := by
    rw [hTd]
    exact mul_pos (by norm_num) (div_pos hnum (by norm_num))
  have hPinEq : DC.P_input store_c1 =
      220 * ((220 - 0.8 * (1500 * 2 * π / 60)) / 1.5) := rfl
  have hPinpos : 0 < DC.P_input store_c1 := by
    rw [hPinEq]
    exact mul_pos (by norm_num) (div_pos hnum (by norm_num))
  have hsrf : DC.speed_reduction_factor store_c1 = 250 / DC.T_developed store_c1 := by
    unfold DC.speed_reduction_factor
    rw [if_pos hTdpos]
    rfl
  have hPoutEq : DC.P_output store_c1 =
      250 * (1500 * (1 - 250 / DC.T_developed store_c1 * 0.1) * 2 * π / 60) := by
    unfold DC.P_output DC.omega_actual DC.N_actual
    rw [hsrf]
    rfl
  refine ⟨hPinpos, ?_⟩
  show 100 < DC.efficiency store_c1
  unfold DC.efficiency
  rw [if_pos hPinpos]
  have hkey : DC.P_input store_c1 < DC.P_output store_c1 := by
    rw [hPinEq, hPoutEq, hTd]
    set q := π with hq
    have hA : (0:ℝ) < 220 - 40*q := by nlinarith [hpiu]
    have hne : (220 - 40*q) ≠ 0 := ne_of_gt hA
    have he : 220 - 0.8 * (1500 * 2 * q / 60) = 220 - 40*q := by ring
    rw [he]
    have hkey1 : 250 / (0.8 * ((220 - 40*q) / 1.5)) = 468.75 / (220 - 40*q) := by
      field_simp
      ring
    rw [hkey1]
    have hkey2 : 1 - 468.75 / (220-40*q) * 0.1 = (173.125 - 40*q) / (220-40*q) := by
      field_simp
      ring
    rw [hkey2]
    have hform : 250 * (1500 * ((173.125 - 40*q)/(220-40*q)) * 2 * q / 60) =
        12500*q*(173.125-40*q)/(220-40*q) := by
      ring
    rw [hform]
    rw [show 220 * ((220-40*q)/1.5) = (220*(220-40*q))/1.5 from by ring]
    rw [div_lt_div_iff₀ (by norm_num : (0:ℝ) < 1.5) hA]
    nlinarith [hpil, hpiu, sq_nonneg (q - 3.145),
      mul_pos (sub_pos.mpr hpil) (sub_pos.mpr hpiu)]
  have hgt1 : 1 < DC.P_output store_c1 / DC.P_input store_c1 :=
    (one_lt_div hPinpos).mpr hkey
  linarith [hgt1]

/-- C1 (amended): every efficiency-curve sample of both engines is
clamped to at most 100; curve samples are additionally at least 0 for
non-degenerate inputs (DC: nonnegative torque constant and rated speed;
AC: nonnegative rotor resistance, frequency and pole count); the
operating-point efficiency is defined as 0 whenever input power is
nonpositive, but is not clamped above 100 (see
`dc_efficiency_exceeds_100`). -/
theorem efficiency_curve_bounds (pv : ParamStore) :
    (∀ x ∈ (DC.simulate_dc_motor pv).efficiency_curve, x ≤ 100) ∧
    (∀ x ∈ (AC.simulate_ac_motor pv).efficiency_curve, x ≤ 100) ∧
    (0 ≤ DC.Kt pv → 0 ≤ DC.N_rated pv →
      ∀ x ∈ (DC.simulate_dc_motor pv).efficiency_curve, 0 ≤ x) ∧
    (0 ≤ AC.Rr pv → 0 ≤ AC.f pv → 0 ≤ AC.P_poles pv →
      ∀ x ∈ (AC.simulate_ac_motor pv).efficiency_curve, 0 ≤ x) ∧
    ((DC.simulate_dc_motor pv).input_power ≤ 0 →
      (DC.simulate_dc_motor pv).efficiency = 0) ∧
    ((AC.simulate_ac_motor pv).input_power ≤ 0 →
      (AC.simulate_ac_motor pv).efficiency = 0) := by
  have hdceq : (DC.simulate_dc_motor pv).efficiency_curve =
      (linspace 0 (DC.N_rated pv * 1.2) 50).map (fun n => min (DC.curve_eff pv n) 100) := rfl
  have haceq : (AC.simulate_ac_motor pv).efficiency_curve =
      (linspace 0.001 1.0 50).map (fun sv => min (AC.curve_eff_s pv sv) 100) := rfl
  refine ⟨?_, ?_, ?_, ?_, ?_, ?_⟩
  · rw [hdceq]
    intro x hx
    obtain ⟨n, -, rfl⟩ := List.mem_map.mp hx
    exact min_le_right _ _
  · rw [haceq]
    intro x hx
    obtain ⟨sv, -, rfl⟩ := List.mem_map.mp hx
    exact min_le_right _ _
  · intro hKt hN
    rw [hdceq]
    intro x hx
    obtain ⟨n, hn, rfl⟩ := List.mem_map.mp hx
    have hn0 : 0 ≤ n := (linspace_mem_bounds (by nlinarith [hN]) hn).1
    have heff : 0 ≤ DC.curve_eff pv n := by
      unfold DC.curve_eff
      split_ifs with h
      · refine mul_nonneg (div_nonneg ?_ h.le) (by norm_num)
        unfold DC.curve_P_out DC.curve_T DC.curve_omega DC.curve_Ia
        refine mul_nonneg (mul_nonneg hKt (le_max_left _ _)) ?_
        exact div_nonneg (mul_nonneg (mul_nonneg hn0 (by norm_num)) Real.pi_pos.le)
          (by norm_num)
      · exact le_refl 0
    exact le_min heff (by norm_num)
  · intro hRr hf hp
    rw [haceq]
    intro x hx
    obtain ⟨sv, hsv, rfl⟩ := List.mem_map.mp hx
    have hb := linspace_mem_bounds (by norm_num : (0.001:ℝ) ≤ 1.0) hsv
    have hsv0 : 0 < sv := lt_of_lt_of_le (by norm_num) hb.1
    have hNs : 0 ≤ AC.Ns pv := by
      unfold AC.Ns
      refine div_nonneg (by nlinarith [hf]) ?_
      exact_mod_cast hp
    have hws : 0 ≤ AC.omega_sync pv := by
      unfold AC.omega_sync
      exact div_nonneg (mul_nonneg (mul_nonneg hNs (by norm_num)) Real.pi_pos.le)
        (by norm_num)
    have hT : 0 ≤ AC.curve_T_s pv sv := by
      unfold AC.curve_T_s
      rw [if_pos hsv0]
      refine div_nonneg (div_nonneg ?_ hsv0.le) ?_
      · exact mul_nonneg (mul_nonneg (by norm_num) (sq_nonneg _)) hRr
      · exact mul_nonneg hws (add_nonneg (sq_nonneg _) (sq_nonneg _))
    have hPout : 0 ≤ AC.curve_P_out_s pv sv := by
      unfold AC.curve_P_out_s
      refine div_nonneg (mul_nonneg (mul_nonneg ?_ (by norm_num)) Real.pi_pos.le)
        (by norm_num)
      exact mul_nonneg (mul_nonneg hT hNs) (by linarith [hb.2])
    have heff : 0 ≤ AC.curve_eff_s pv sv := by
      unfold AC.curve_eff_s
      split_ifs with h
      · exact mul_nonneg (div_nonneg hPout h.le) (by norm_num)
      · exact le_refl 0
    exact le_min heff (by norm_num)
  · intro h
    show DC.efficiency pv = 0
    unfold DC.efficiency
    exact if_neg (not_lt.mpr h)
  · intro h
    show AC.efficiency pv = 0
    unfold AC.efficiency
    exact if_neg (not_lt.mpr h)

/-- Witness for C1 (amended) at the default parameter store. -/
theorem efficiency_curve_bounds_witness :
    (∀ x ∈ (DC.simulate_dc_motor emptyStore).efficiency_curve, 0 ≤ x ∧ x ≤ 100) ∧
    (∀ x ∈ (AC.simulate_ac_motor emptyStore).efficiency_curve, 0 ≤ x ∧ x ≤ 100) := by
  have h := efficiency_curve_bounds emptyStore
  have hdc0 := h.2.2.1 (by norm_num [DC.Kt]) (by norm_num [DC.N_rated])
  have hac0 := h.2.2.2.1 (by norm_num [AC.Rr]) (by norm_num [AC.f])
    (by norm_num [AC.P_poles, py_int, get_parameter_value, emptyStore])
  exact ⟨fun x hx => ⟨hdc0 x hx, h.1 x hx⟩, fun x hx => ⟨hac0 x hx, h.2.1 x hx⟩⟩

/-- Slip 0 together with magnetizing current 0 (defaults otherwise). -/
def store_c5x : ParamStore := fun k =>
  if k = "slip" then some (some 0)
  else if k = "magnetizing_current" then some (some 0)
  else none

set_option maxHeartbeats 1000000 in
/-- C5 counterexample: with slip 0 and magnetizing current 0 the AC
engine raises `ZeroDivisionError` computing the magnetizing reactance
`Xm = V / (Im * sqrt(3))` (source line 790). -/
theorem ac_motor_py_raises_on_zero_Im :
    simulate_ac_motor_py store_c5x =
      .error "ZeroDivisionError: float division by zero" := by
  have h4 : ((py_int (4:ℝ) : ℤ) : ℝ) = 4 := by norm_num [py_int]
  unfold simulate_ac_motor_py
  simp only [show get_parameter_value store_c5x "rated_voltage" 220 = 220 from rfl,
    show get_parameter_value store_c5x "frequency" 50 = 50 from rfl,
    show get_parameter_value store_c5x "poles" 4 = 4 from rfl,
    show get_parameter_value store_c5x "stator_resistance" 1.2 = 1.2 from rfl,
    show get_parameter_value store_c5x "rotor_resistance" 0.8 = 0.8 from rfl,
    show get_parameter_value store_c5x "magnetizing_current" 3.0 = 0 from rfl,
    show get_parameter_value store_c5x "slip" 3.0 = 0 from rfl,
    h4, PyVal.pyDiv_fin_fin, PyVal.pyDiv_fin_zero, PyVal.pyMul_fin_fin,
    PyVal.pySub_fin_fin, PyVal.pyAdd_fin_fin, ok_bind, error_bind,
    zero_mul, mul_zero, ne_eq, OfNat.ofNat_ne_zero, not_false_eq_true]

set_option maxHeartbeats 1000000 in
/-- Every iteration of the AC sweep succeeds on finite inputs with
positive slip sample, nonnegative stator resistance, positive rotor
resistance and nonzero synchronous angular speed. -/
theorem ac_sample_py_ok (v vph rs rr x1 x2 ws ns sv : ℝ)
    (hsv : 0 < sv) (hrs : 0 ≤ rs) (hrr : 0 < rr) (hws : ws ≠ 0) :
    ∃ t, ac_sample_py (.fin v) (.fin vph) (.fin rs) (.fin rr) (.fin x1) (.fin x2)
      (.fin ws) (.fin ns) sv = .ok t := by
  have hsvne : sv ≠ 0 := ne_of_gt hsv
  have hrrsv : 0 < rs + rr / sv := add_pos_of_nonneg_of_pos hrs (div_pos hrr hsv)
  have hApos : 0 < (rs + rr / sv) * (rs + rr / sv) + (x1 + x2) * (x1 + x2) :=
    add_pos_of_pos_of_nonneg (mul_pos hrrsv hrrsv) (mul_self_nonneg _)
  have hAnlt : ¬ ((rs + rr / sv) * (rs + rr / sv) + (x1 + x2) * (x1 + x2)) < 0 :=
    not_lt.mpr hApos.le
  have hsq : 0 < Real.sqrt ((rs + rr / sv) * (rs + rr / sv) + (x1 + x2) * (x1 + x2)) :=
    Real.sqrt_pos.mpr hApos
  have hsqne : Real.sqrt ((rs + rr / sv) * (rs + rr / sv) + (x1 + x2) * (x1 + x2)) ≠ 0 :=
    ne_of_gt hsq
  have hden : ws * ((rs + rr / sv) * (rs + rr / sv) + (x1 + x2) * (x1 + x2)) ≠ 0 :=
    mul_ne_zero hws (ne_of_gt hApos)
  unfold ac_sample_py
  simp only [hsv, gt_iff_lt, if_true, PyVal.pyDiv_fin_fin, PyVal.pyMul_fin_fin,
    PyVal.pyAdd_fin_fin, PyVal.pySub_fin_fin, PyVal.pySqrtE_fin, PyVal.pyGt_fin_fin,
    ok_bind, pure_bind, hsvne, hAnlt, hsq, hsqne, hden, ne_eq, not_false_eq_true,
    OfNat.ofNat_ne_zero]
  split_ifs with hpin
  · simp only [PyVal.pyDiv_fin_fin, ok_bind, ne_eq, ne_of_gt hpin, not_false_eq_true]
    exact ⟨_, rfl⟩
  · exact ⟨_, rfl⟩

set_option maxHeartbeats 2000000 in
/-- C5 (amended): for every Parameter Set with slip percent exactly 0
whose magnetizing current, truncated pole count and frequency are
nonzero, stator resistance nonnegative and rotor resistance positive,
the AC engine raises no error: the effective rotor resistance is the
`float('inf')` sentinel; downstream, impedance is `inf`, phase current
is 0, power factor, input power and the temperatures are the NaN
sentinel, and efficiency is 0. -/
theorem ac_slip_zero_no_error (pv : ParamStore)
    (hslip : get_parameter_value pv "slip" 3.0 = 0)
    (hIm : get_parameter_value pv "magnetizing_current" 3.0 ≠ 0)
    (hpl : py_int (get_parameter_value pv "poles" 4) ≠ 0)
    (hf : get_parameter_value pv "frequency" 50 ≠ 0)
    (hRs : 0 ≤ get_parameter_value pv "stator_resistance" 1.2)
    (hRr : 0 < get_parameter_value pv "rotor_resistance" 0.8) :
    ∃ r, simulate_ac_motor_py pv = .ok r ∧
      r.Rr_prime = PyVal.inf ∧ r.Z = PyVal.inf ∧ r.I1 = PyVal.fin 0 ∧
      r.power_factor = PyVal.nan ∧ r.P_input = PyVal.nan ∧
      r.efficiency = PyVal.fin 0 ∧ r.temp_rise = PyVal.nan ∧
      r.operating_temp = PyVal.nan := by
  set v := get_parameter_value pv "rated_voltage" 220 with hv
  set fq := get_parameter_value pv "frequency" 50 with hfq
  set pl := py_int (get_parameter_value pv "poles" 4) with hpldef
  set rs := get_parameter_value pv "stator_resistance" 1.2 with hrsdef
  set rr := get_parameter_value pv "rotor_resistance" 0.8 with hrrdef
  set im := get_parameter_value pv "magnetizing_current" 3.0 with himdef
  have hplR : ((pl : ℤ) : ℝ) ≠ 0 := Int.cast_ne_zero.mpr hpl
  have hsqrt3 : Real.sqrt 3 ≠ 0 := ne_of_gt (Real.sqrt_pos.mpr (by norm_num))
  have him3 : im * Real.sqrt 3 ≠ 0 := mul_ne_zero hIm hsqrt3
  have hwsne : 120 * fq / ((pl : ℤ) : ℝ) * 2 * π / 60 ≠ 0 :=
    div_ne_zero (mul_ne_zero (mul_ne_zero
      (div_ne_zero (mul_ne_zero (by norm_num) hf) hplR) (by norm_num))
      Real.pi_ne_zero) (by norm_num)
  unfold simulate_ac_motor_py
  simp only [hslip, PyVal.pyDiv_fin_fin, PyVal.pyMul_fin_fin, PyVal.pyAdd_fin_fin,
    PyVal.pySub_fin_fin, PyVal.pyAdd_fin_inf, PyVal.pyAdd_inf_fin, PyVal.pyMul_inf_inf,
    PyVal.pySqrtE_inf, PyVal.pyDiv_fin_inf, PyVal.pyDiv_inf_inf, PyVal.pyGt_fin_fin,
    PyVal.pyGt_inf_fin, PyVal.pyGt_nan_fin, PyVal.pyMul_fin_nan, PyVal.pyMul_nan_left,
    PyVal.pySub_nan_fin, PyVal.pySub_nan_nan, PyVal.pyAdd_fin_nan,
    ok_bind, error_bind, pure_bind, gt_iff_lt, lt_self_iff_false,
    if_true, if_false, ite_true, ite_false,
    zero_div, neg_zero, add_zero, mul_one, mul_zero, zero_mul,
    ne_eq, not_false_eq_true, OfNat.ofNat_ne_zero,
    hplR, him3, hsqrt3, hwsne]
  have hsamp : ∀ sv ∈ AC.slip_range, ∃ y,
      ac_sample_py (.fin v) (.fin (v / Real.sqrt 3)) (.fin rs) (.fin rr)
        (.fin (0.1 * (v / (im * Real.sqrt 3)))) (.fin (0.1 * (v / (im * Real.sqrt 3))))
        (.fin (120 * fq / ((pl : ℤ) : ℝ) * 2 * π / 60))
        (.fin (120 * fq / ((pl : ℤ) : ℝ))) sv = .ok y := by
    intro sv hsv
    have hb := linspace_mem_bounds (by norm_num : (0.001:ℝ) ≤ 1.0) hsv
    exact ac_sample_py_ok _ _ _ _ _ _ _ _ sv
      (lt_of_lt_of_le (by norm_num) hb.1) hRs hRr hwsne
  obtain ⟨ys, hys⟩ := mapE_isOk _ _ hsamp
  rw [hys]
  split_ifs with homega
  · simp only [PyVal.pyDiv_nan_fin hwsne, ok_bind, pure_bind]
    exact ⟨_, rfl, rfl, rfl, rfl, rfl, rfl, rfl, rfl, rfl⟩
  · simp only [ok_bind, pure_bind]
    exact ⟨_, rfl, rfl, rfl, rfl, rfl, rfl, rfl, rfl, rfl⟩

/-- Slip percent 0, everything else default. -/
def store_c5w : ParamStore := fun k =>
  if k = "slip" then some (some 0) else none

/-- Witness for C5 (amended): slip 0 with otherwise default parameters
completes without error, with the inf/NaN/0 degradations. -/
theorem ac_slip_zero_no_error_witness :
    ∃ r, simulate_ac_motor_py store_c5w = .ok r ∧
      r.Rr_prime = PyVal.inf ∧ r.Z = PyVal.inf ∧ r.I1 = PyVal.fin 0 ∧
      r.power_factor = PyVal.nan ∧ r.P_input = PyVal.nan ∧
      r.efficiency = PyVal.fin 0 ∧ r.temp_rise = PyVal.nan ∧
      r.operating_temp = PyVal.nan :=
  ac_slip_zero_no_error store_c5w rfl
    (by norm_num : (3.0:ℝ) ≠ 0)
    (by norm_num [py_int] : py_int (4:ℝ) ≠ 0)
    (by norm_num : (50:ℝ) ≠ 0)
    (by norm_num : (0:ℝ) ≤ 1.2)
    (by norm_num : (0:ℝ) < 0.8)
